import Mathlib

/-!
Verification of the assistant session protocol client.

This file shallowly embeds the client's state machine: the response
arbitrator, audio assembler, playback queue, speech fallback, and capture
encoder, as implemented by the front-end script (the file containing
`handleLiveMessage`, `handleNavAssist`, `bufferAudioChunk`,
`finalizeAudioResponse`, `createWavBlob`, `playNextAudio`,
`startRecording`, `stopRecording`, `scheduleNavSpeechFallback`, ...).

Modelling conventions:
* The mutable globals of the script become fields of `AppState`; each JS
  function becomes a pure function `AppState → args → AppState × List Eff`,
  where `Eff` records the externally observable actions (DOM rendering,
  speech synthesis, WebSocket sends, audio element operations, timers are
  kept in the state as an armed deadline).
* Host primitives are abstracted at their boundary: `atob`-decoded audio
  payloads are carried as byte lists (`List Nat`, each entry < 256 in real
  runs); `JSON.parse` inside `isNavigationPayload` is a host call whose
  outcome (a parsed object carrying a string `page`/`destination` field)
  is supplied as the boolean `parsedNav` alongside the raw content, while
  the syntactic brace/trim guard is modelled exactly; object URLs created
  for assembled clips are identified with the clip bytes themselves;
  `speechSynthesis` is assumed available.
* Microphone samples are modelled as rationals.  Float32 samples are
  dyadic rationals, and the products `s * 0x8000` / `s * 0x7FFF` of a
  float32 with these constants are exact in float64 arithmetic, so the
  rational model computes exactly the values the script computes
  (NaN inputs are outside the model).
* `setTimeout(fn, 2500)` is modelled by storing the deadline `now + 2500`
  in `navResponseTimeout`; a `timerFire` event at exactly that stored
  deadline runs the callback body, and `clearTimeout` erases the deadline
  so a later `timerFire` is a no-op (the callback no longer exists).
-/

/-- JS truthiness of a nullable string: `null`/`undefined` and the empty
string are falsy. -/
def strTruthy : Option String → Bool
  | none => false
  | some s => !(s == "")

/-- JS `a || b` on nullable strings: first operand if truthy, else second. -/
def jsOr (a b : Option String) : Option String :=
  if strTruthy a then a else b

/-- JS `String.prototype.replace('#', '')`: removes the first `#` only. -/
def dropFirstHash : List Char → List Char
  | [] => []
  | c :: rest => if c = '#' then rest else c :: dropFirstHash rest

/-- Model of `route.replace('#', '')` as used for navigation targets. -/
def stripHash (s : String) : String := ⟨dropFirstHash s.toList⟩

/-- Maximal leading digit run (the greedy `(\d+)` capture). -/
def leadingDigits : List Char → List Char
  | [] => []
  | c :: rest => if c.isDigit then c :: leadingDigits rest else []

/-- Model of `parseInt(digits, 10)` on a digit run. -/
def digitsToNat (l : List Char) : Nat :=
  l.foldl (fun a c => a * 10 + (c.toNat - 48)) 0

/-- First match of the regex `/rate=(\d+)/`: scan left to right for a
position where `rate=` is followed by at least one digit. -/
def findRate : List Char → Option Nat
  | [] => none
  | c :: rest =>
      if c = 'r' && rest.take 4 = ['a', 't', 'e', '='] &&
          (match rest.drop 4 with
           | d :: _ => d.isDigit
           | [] => false) then
        some (digitsToNat (leadingDigits (rest.drop 4)))
      else findRate rest

/-- Model of `getSampleRateFromMime(mimeType)`: null on a falsy tag, else the first
`rate=(\d+)` capture parsed as an integer. -/
def getSampleRateFromMime (mime : Option String) : Option Nat :=
  match mime with
  | none => none
  | some s => if s == "" then none else findRate s.toList

/-- JS `x || 24000` on the parsed sample rate (`0` is falsy). -/
def rateOrDefault (r : Option Nat) : Nat :=
  match r with
  | none => 24000
  | some n => if n = 0 then 24000 else n

/-- The regex `/[؀-ۿ]/.test(text)` of `isArabicText`. -/
def isArabicText (text : String) : Bool :=
  text.toList.any (fun c => 1536 ≤ c.toNat && c.toNat ≤ 1791)

/-- Utterance language selection in `speakTextResponse`. -/
def speechLang (text : String) : String :=
  if isArabicText text then "ar-SA" else "en-US"

/-- Whitespace stripped by the host `String.prototype.trim` (ASCII
subset; the payloads in this model carry no exotic Unicode spacing). -/
def isJsSpace (c : Char) : Bool :=
  c = ' ' || c = '\t' || c = '\n' || c = '\r' || c = '\x0b' || c = '\x0c'

/-- Host `String.prototype.trim`, modelled over the char list. -/
def jsTrim (s : String) : String :=
  ⟨((s.toList.dropWhile isJsSpace).reverse.dropWhile isJsSpace).reverse⟩

/-- Model of `isNavigationPayload(text)`: falsy text is not a payload; otherwise the
trimmed text must start with `{` and end with `}`, and `JSON.parse` must
yield an object with a string `page` or `destination` field.  The parse
outcome is the host-supplied `parsedNav` (a parse error yields `false`,
matching the catch branch). -/
def isNavigationPayload (content : String) (parsedNav : Bool) : Bool :=
  if content == "" then false
  else
    let trimmed := (jsTrim content).toList
    let startsOk := match trimmed with
      | c :: _ => c = '\x7b'
      | [] => false
    let endsOk := match trimmed.getLast? with
      | some c => c = '\x7d'
      | none => false
    if !startsOk || !endsOk then false else parsedNav

/-- Model of `concatUint8Arrays(chunks)`: byte concatenation in arrival order. -/
def concatUint8Arrays (chunks : List (List Nat)) : List Nat :=
  chunks.flatten

/-- Model of `DataView.setUint16(_, n, true)`: two little-endian bytes. -/
def u16le (n : Nat) : List Nat :=
  [n % 256, n / 256 % 256]

/-- Model of `DataView.setUint32(_, n, true)`: four little-endian bytes. -/
def u32le (n : Nat) : List Nat :=
  [n % 256, n / 256 % 256, n / 65536 % 256, n / 16777216 % 256]

/-- Model of `writeString(view, _, s)`: the char codes of an ASCII tag. -/
def asciiBytes (s : String) : List Nat :=
  s.toList.map Char.toNat

/-- The first 40 header bytes written by `createWavBlob` (everything before
the `data` chunk size at offset 40). -/
def wavHeaderPre (sampleRate dataSize : Nat) : List Nat :=
  asciiBytes "RIFF" ++ u32le (36 + dataSize) ++ asciiBytes "WAVE" ++
  asciiBytes "fmt " ++ u32le 16 ++ u16le 1 ++ u16le 1 ++
  u32le sampleRate ++ u32le (sampleRate * 2) ++ u16le 2 ++ u16le 16 ++
  asciiBytes "data"

/-- Model of `createWavBlob(pcmBytes, sampleRate)`: 44-byte canonical header
(RIFF size 36 + data size, PCM, mono, 16-bit, block align 2, byte rate
rate * 2) followed by the PCM payload. -/
def createWavBlob (pcmBytes : List Nat) (sampleRate : Nat) : List Nat :=
  wavHeaderPre sampleRate pcmBytes.length ++ u32le pcmBytes.length ++ pcmBytes

/-- Little-endian 32-bit read at byte offset `i` (0 past the end). -/
def readU32le (l : List Nat) (i : Nat) : Nat :=
  match l.drop i with
  | b0 :: b1 :: b2 :: b3 :: _ => b0 + 256 * b1 + 65536 * b2 + 16777216 * b3
  | _ => 0

/-- Little-endian signed 16-bit read at byte offset `i`. -/
def readI16le (l : List Nat) (i : Nat) : ℤ :=
  match l.drop i with
  | b0 :: b1 :: _ =>
      let m := b0 + 256 * b1
      if m < 32768 then (m : ℤ) else (m : ℤ) - 65536
  | _ => 0

/-- The base64 alphabet used by `btoa`. -/
def b64Alphabet : List Char :=
  "ABCDEFGHIJKLMNOPQRSTUVWXYZabcdefghijklmnopqrstuvwxyz0123456789+/".toList

/-- One base64 digit. -/
def b64Char (n : Nat) : Char := b64Alphabet.getD n 'A'

/-- Model of `btoa(String.fromCharCode(...bytes))`: standard base64 with padding. -/
def base64Encode : List Nat → String
  | [] => ""
  | [a] => String.mk [b64Char (a / 4), b64Char (a % 4 * 16), '=', '=']
  | [a, b] =>
      String.mk [b64Char (a / 4), b64Char (a % 4 * 16 + b / 16),
        b64Char (b % 16 * 4), '=']
  | a :: b :: c :: rest =>
      String.mk [b64Char (a / 4), b64Char (a % 4 * 16 + b / 16),
        b64Char (b % 16 * 4 + c / 64), b64Char (c % 64)] ++ base64Encode rest

/-- Truncation toward zero, the `ToInt16` conversion applied when a number
is stored into an `Int16Array`. -/
def jsTrunc (q : ℚ) : ℤ :=
  if 0 ≤ q then ⌊q⌋ else ⌈q⌉

/-- Model of `Math.max(-1, Math.min(1, s))`. -/
def clampSample (s : ℚ) : ℚ := max (-1) (min 1 s)

/-- Model of `pcmData[i] = s < 0 ? s * 0x8000 : s * 0x7FFF` after clamping. -/
def pcmSample (s : ℚ) : ℤ :=
  let c := clampSample s
  jsTrunc (if c < 0 then c * 32768 else c * 32767)

/-- The 16-bit two's-complement pattern stored for an int16 value. -/
def int16Bits (n : ℤ) : Nat := (n % 65536).toNat

/-- The two little-endian bytes of one converted sample, as seen through
`new Uint8Array(pcmData.buffer)`. -/
def sampleBytes (s : ℚ) : List Nat :=
  let m := int16Bits (pcmSample s)
  [m % 256, m / 256]

/-- The byte buffer built from one capture buffer's samples. -/
def pcmBuffer (samples : List ℚ) : List Nat :=
  (samples.map sampleBytes).flatten

/-- Outbound channel envelopes sent over the WebSocket. -/
inductive OutEnvelope where
  | audioOut (b64 : String) (mime : String)
  | audioStreamEnd
deriving DecidableEq

/-- Assist actions (`executeAssistActions` switch). -/
inductive AssistAction where
  | navigate (value : Option String)
  | openChat
  | openUpload
  | focusChatInput
  | insertText (value : Option String)
  | sendText
  | showGuide
  | highlight (target : Option String)
  | unknown
deriving DecidableEq

/-- Outcome of the assist lookup: a network/HTTP failure (caught by the
`catch` branch, which also covers a non-ok response thrown as an error),
or the parsed response body. -/
inductive AssistOutcome where
  | failure
  | success (message : Option String) (actions : Option (List AssistAction))
      (handled : Bool)
deriving DecidableEq

/-- Parsed body of a successful `/api/ai-agent/query` response. -/
structure QueryResp where
  content : String
  sessionIdField : Option String
  toolUsed : Option String
  targetRoute : Option String
deriving DecidableEq

/-- Inbound channel envelopes, demultiplexed by `type`.  A `text` envelope
carries the content together with the host `JSON.parse` outcome used by
`isNavigationPayload` (see module comment).  An `audio` envelope carries
the `atob`-decoded bytes of its base64 payload. -/
inductive InMsg where
  | connected
  | text (content : String) (parsedNav : Bool)
  | audio (bytes : List Nat) (mime : Option String)
  | transcription (content : String)
  | navigate (message : Option String) (targetRoute : Option String)
  | turnComplete
  | error (content : String)
  | other
deriving DecidableEq

/-- Externally observable actions. -/
inductive Eff where
  | render (text : String) (who : String) (tool : Option String) (isError : Bool)
  | speak (text : String) (lang : String)
  | speechCancel
  | statusUpdate (status : String) (label : String)
  | playAudio (clip : List Nat)
  | revokeUrl (clip : List Nat)
  | pauseAudio (clip : List Nat)
  | sendEnvelope (env : OutEnvelope)
  | navigateEff (page : String)
  | navResponding (active : Bool)
  | recordingClass (added : Bool)
  | assistRequest (command : String) (currentPage : String)
  | consoleLog (tag : String)
  | disconnectProcessor
  | stopTracks
  | closeAudioContext
  | showLoading
  | removeLoading
  | setSendDisabled (b : Bool)
  | focusInput
  | insertText (v : String)
  | clickUpload
  | triggerSendMessage
  | highlightEl (target : String)
  | openChatEff
  | setUploadStatus (text : String) (cls : String)
  | setUploadDisabled (b : Bool)
  | resetFileInput
deriving DecidableEq

/-- The script's mutable globals.  `navResponseTimeout` stores the armed
fallback deadline (ms); `mediaRecorderSet`/`audioCtxSet` record whether the
corresponding handles are non-null; `wsOpen` is
`liveWebSocket && liveWebSocket.readyState === WebSocket.OPEN`;
`activeAudio` and queue entries hold the clip bytes standing in for the
object URL handle; `currentHash` is `window.location.hash`. -/
structure AppState where
  sessionId : Option String
  isProcessing : Bool
  isRecording : Bool
  wsOpen : Bool
  mediaRecorderSet : Bool
  audioCtxSet : Bool
  pendingAudioChunks : List (List Nat)
  pendingAudioMimeType : Option String
  audioQueue : List (List Nat)
  isPlayingAudio : Bool
  hasShownAudioIndicator : Bool
  activeRecordingMode : Option String
  activeRecordingTargetSet : Bool
  navAwaitingResponse : Bool
  lastResponseText : Option String
  navResponseTimeout : Option Nat
  navSuppressRealtime : Bool
  awaitingRealtimeResponse : Bool
  activeAudio : Option (List Nat)
  currentHash : String
deriving DecidableEq

/-- Model of `speakTextResponse(text)`: no-op for falsy text; otherwise cancel any
ongoing synthesis, set the status to Speaking and speak with the
content-chosen language (`speechSynthesis` availability assumed; the
`onend`/`onerror` status resets are later host callbacks). -/
def speakTextResponse (text : String) : List Eff :=
  if text == "" then []
  else
    [Eff.speechCancel, Eff.statusUpdate "connected" "Speaking...",
     Eff.speak text (speechLang text)]

/-- Model of `clearNavSpeechFallback()`: `clearTimeout` and null the handle. -/
def clearNavSpeechFallback (s : AppState) : AppState :=
  { s with navResponseTimeout := none }

/-- Model of `scheduleNavSpeechFallback()` at time `now`: guard on
`navAwaitingResponse && lastResponseText && !navSuppressRealtime`, clear
any pending timer, arm a 2500 ms timeout. -/
def scheduleNavSpeechFallback (now : Nat) (s : AppState) : AppState :=
  if !s.navAwaitingResponse || !(strTruthy s.lastResponseText) ||
      s.navSuppressRealtime then s
  else { s with navResponseTimeout := some (now + 2500) }

/-- Body of the armed `setTimeout` callback in `scheduleNavSpeechFallback`:
re-checks the flags at fire time, speaks the remembered candidate, clears
it and ends the nav-awaiting state. -/
def navFallbackFire (s : AppState) : AppState × List Eff :=
  if s.navAwaitingResponse && s.pendingAudioChunks.isEmpty &&
      strTruthy s.lastResponseText then
    ({ s with lastResponseText := none, navAwaitingResponse := false },
     speakTextResponse (s.lastResponseText.getD ""))
  else (s, [])

/-- Model of `resetNavAssistState()`. -/
def resetNavAssistState (s : AppState) : AppState :=
  clearNavSpeechFallback { s with navSuppressRealtime := false }

/-- Model of `resetAudioPlaybackState()`: drop buffered fragments, rate tag, queue
and flags; pause and drop any active clip handle. -/
def resetAudioPlaybackState (s : AppState) : AppState × List Eff :=
  let effs := match s.activeAudio with
    | some clip => [Eff.pauseAudio clip]
    | none => []
  ({ s with
      pendingAudioChunks := [], pendingAudioMimeType := none,
      audioQueue := [], isPlayingAudio := false,
      hasShownAudioIndicator := false, activeAudio := none }, effs)

/-- Model of `bufferAudioChunk(base64Audio, mimeType)` after `atob` decoding: a
falsy payload or zero decoded bytes are dropped before any state change;
otherwise the bytes are appended and the assumed rate tag updated by
`mimeType || pendingAudioMimeType || 'audio/pcm;rate=24000'`. -/
def bufferAudioChunk (s : AppState) (bytes : List Nat) (mime : Option String) :
    AppState :=
  if bytes.isEmpty then s
  else
    { s with
        pendingAudioChunks := s.pendingAudioChunks ++ [bytes],
        pendingAudioMimeType :=
          jsOr mime (jsOr s.pendingAudioMimeType (some "audio/pcm;rate=24000")) }

/-- Model of `setNavResponding(b)`: the mic button carries the responding class iff
`b && navAwaitingResponse`. -/
def navRespondingEff (s : AppState) (b : Bool) : Eff :=
  Eff.navResponding (b && s.navAwaitingResponse)

/-- Model of `playNextAudio()`: on an empty queue clear the playing flag, the
indicator and the active handle and reset the status; otherwise shift the
head clip, mark it active and start playback. -/
def playNextAudio (s : AppState) : AppState × List Eff :=
  match s.audioQueue with
  | [] =>
      ({ s with
          isPlayingAudio := false, hasShownAudioIndicator := false,
          activeAudio := none },
       [Eff.statusUpdate "connected" "Ready"])
  | url :: rest =>
      ({ s with
          isPlayingAudio := true, audioQueue := rest,
          activeAudio := some url },
       [Eff.playAudio url])

/-- The `onended`/`onerror` handler of the active clip: revoke its object
URL, drop the active handle, advance the queue. -/
def audioPlaybackDone (s : AppState) : AppState × List Eff :=
  match s.activeAudio with
  | none => (s, [])
  | some clip =>
      let r := playNextAudio { s with activeAudio := none }
      (r.1, Eff.revokeUrl clip :: r.2)

/-- Model of `finalizeAudioResponse()`: no-op without buffered fragments; otherwise
concatenate them, build the WAV clip at the declared (or default 24000)
rate, enqueue it, clear the turn's fragment state, show the one-time
indicator and start playback if idle. -/
def finalizeAudioResponse (s : AppState) : AppState × List Eff :=
  if s.pendingAudioChunks.isEmpty then (s, [])
  else
    let pcmBytes := concatUint8Arrays s.pendingAudioChunks
    let sampleRate := rateOrDefault (getSampleRateFromMime s.pendingAudioMimeType)
    let wav := createWavBlob pcmBytes sampleRate
    let s1 := { s with
        audioQueue := s.audioQueue ++ [wav],
        pendingAudioChunks := [], pendingAudioMimeType := none }
    let (s2, e2) :=
      if !s1.hasShownAudioIndicator then
        ({ s1 with hasShownAudioIndicator := true },
         [Eff.render "🔊 Playing audio response..." "bot" none false])
      else (s1, [])
    if !s2.isPlayingAudio then
      let r := playNextAudio s2
      (r.1, e2 ++ r.2)
    else (s2, e2)

/-- Model of `executeAssistActions(actions)` (DOM interactions become effects; a
`send_text` action triggers `handleSendMessage` on the DOM input, recorded
as an effect). -/
def executeAssistActions (actions : List AssistAction) : List Eff :=
  actions.flatMap fun a =>
    match a with
    | .navigate v =>
        let target := stripHash (v.getD "")
        if target == "" then [] else [Eff.navigateEff target]
    | .openChat => [Eff.openChatEff]
    | .openUpload => [Eff.clickUpload]
    | .focusChatInput => [Eff.focusInput]
    | .insertText v =>
        match v with
        | some t => [Eff.insertText t, Eff.focusInput]
        | none => []
    | .sendText => [Eff.triggerSendMessage]
    | .showGuide =>
        [Eff.render "Here is a quick guide to the site:" "bot"
          (some "navigation") false]
    | .highlight t =>
        match t with
        | some id => [Eff.highlightEl id]
        | none => []
    | .unknown => []

/-- The continuation of `handleNavAssist` once the lookup settles: a
failure (network error or non-ok status) is only logged; a success
surfaces the message, remembers it as fallback candidate, executes the
actions, and on `handled` claims the turn: suppress the autonomous
response, cancel the fallback timer, speak the candidate immediately and
clear the awaiting flags. -/
def handleNavAssistResult (s : AppState) :
    AssistOutcome → AppState × List Eff
  | .failure => (s, [Eff.consoleLog "Nav assist error"])
  | .success msg actions handled =>
      let (s1, e1) :=
        if strTruthy msg then
          ({ s with lastResponseText := msg },
           [Eff.render (msg.getD "") "bot" (some "navigation") false])
        else (s, [])
      let e2 := match actions with
        | some l => executeAssistActions l
        | none => []
      if handled then
        let s2 := clearNavSpeechFallback { s1 with navSuppressRealtime := true }
        let e3 :=
          if strTruthy s2.lastResponseText then
            speakTextResponse (s2.lastResponseText.getD "")
          else []
        ({ s2 with
            lastResponseText := none, navAwaitingResponse := false,
            awaitingRealtimeResponse := false },
         e1 ++ e2 ++ e3)
      else (s1, e1 ++ e2)

/-- Model of `handleLiveMessage(message)` at time `now`: the inbound demultiplexer
and response arbitrator. -/
def handleLiveMessage (now : Nat) (s : AppState) : InMsg → AppState × List Eff
  | .connected =>
      (s, [Eff.render "Connected to OpenAI Realtime" "bot" none false])
  | .text content parsedNav =>
      if s.navSuppressRealtime && s.navAwaitingResponse then (s, [])
      else if !(isNavigationPayload content parsedNav) then
        let s1 := scheduleNavSpeechFallback now
          { s with lastResponseText := some content }
        (s1, [Eff.render content "bot" none false, navRespondingEff s1 true])
      else (s, [navRespondingEff s true])
  | .audio bytes mime =>
      if s.navSuppressRealtime && s.navAwaitingResponse then
        (clearNavSpeechFallback s, [])
      else if !s.awaitingRealtimeResponse then (s, [])
      else
        let s1 := bufferAudioChunk (clearNavSpeechFallback s) bytes mime
        (s1, [navRespondingEff s1 true])
  | .transcription content =>
      let base := [Eff.render content "user" none false]
      if !s.navAwaitingResponse || content == "" then (s, base)
      else
        (s, base ++ [Eff.assistRequest content
          (if s.currentHash == "" then "#dashboard" else s.currentHash)])
  | .navigate message targetRoute =>
      let (s1, e1) :=
        if strTruthy message then
          let s' := scheduleNavSpeechFallback now
            { s with lastResponseText := message }
          (s', [Eff.render (message.getD "") "bot" (some "navigation") false])
        else (s, [])
      let e2 :=
        if strTruthy targetRoute then
          [Eff.navigateEff (stripHash (targetRoute.getD ""))]
        else []
      (s1, e1 ++ e2 ++ [navRespondingEff s1 false])
  | .turnComplete =>
      let s0 := clearNavSpeechFallback s
      if s0.navSuppressRealtime then
        ({ s0 with
            pendingAudioChunks := [], navSuppressRealtime := false,
            lastResponseText := none, navAwaitingResponse := false,
            awaitingRealtimeResponse := false },
         [Eff.navResponding false])
      else
        let (s1, e1) :=
          if !s0.pendingAudioChunks.isEmpty then finalizeAudioResponse s0
          else if s0.navAwaitingResponse && strTruthy s0.lastResponseText then
            (s0, speakTextResponse (s0.lastResponseText.getD ""))
          else (s0, [])
        ({ s1 with
            lastResponseText := none, navAwaitingResponse := false,
            awaitingRealtimeResponse := false },
         e1 ++ [Eff.navResponding false])
  | .error content =>
      (s, [Eff.render ("Error: " ++ content) "bot" none true])
  | .other => (s, [])

/-- Model of `processor.onaudioprocess`: drop the buffer unless recording is active
and the channel open; otherwise convert, base64-encode and send the tagged
audio envelope. -/
def onAudioProcess (s : AppState) (samples : List ℚ) : List Eff :=
  if !s.isRecording || !s.wsOpen then []
  else
    [Eff.sendEnvelope (.audioOut (base64Encode (pcmBuffer samples))
      "audio/pcm;rate=16000")]

/-- Model of `startRecording(mode, buttonEl)`: rejected while recording; otherwise
reset nav-assist and playback state first, then either fail on microphone
access (visible message, no session) or install the capture session.
`micOk` is the host `getUserMedia` outcome. -/
def startRecording (s : AppState) (mode : String) (micOk : Bool) :
    AppState × List Eff :=
  if s.isRecording then (s, [])
  else
    let (s1, e1) := resetAudioPlaybackState (resetNavAssistState s)
    if !micOk then
      (s1, e1 ++ [Eff.render
        "Could not access microphone. Please check permissions." "bot"
        none true])
    else
      ({ s1 with
          mediaRecorderSet := true, audioCtxSet := true,
          isRecording := true, activeRecordingMode := some mode,
          activeRecordingTargetSet := true, navAwaitingResponse := false,
          awaitingRealtimeResponse := false, hasShownAudioIndicator := false },
       e1 ++ [Eff.recordingClass true, Eff.navResponding false,
         Eff.statusUpdate "recording" "Listening..."])

/-- Model of `stopRecording()`: clear the recording flag, tear down the processor,
tracks and audio context, send `audio_stream_end` whenever the channel is
open, and arm the turn flags (`navAwaitingResponse` only for the nav mode,
`awaitingRealtimeResponse` always). -/
def stopRecording (s : AppState) : AppState × List Eff :=
  let e1 := if s.mediaRecorderSet then
      [Eff.disconnectProcessor, Eff.stopTracks] else []
  let e2 := if s.audioCtxSet then [Eff.closeAudioContext] else []
  let e3 := if s.wsOpen then [Eff.sendEnvelope .audioStreamEnd] else []
  let e4 := if s.activeRecordingTargetSet then [Eff.recordingClass false] else []
  ({ s with
      isRecording := false, audioCtxSet := false,
      navAwaitingResponse :=
        (if s.activeRecordingMode = some "nav" then true
         else s.navAwaitingResponse),
      awaitingRealtimeResponse := true,
      activeRecordingMode := none, activeRecordingTargetSet := false },
   e1 ++ e2 ++ e3 ++ e4 ++ [Eff.statusUpdate "connected" "Processing..."])

/-- Model of `handleSendMessage()` for input `input` with the query outcome: guard
on empty input or an in-flight request; otherwise surface the user
message, set the processing guard, run the request, and release the guard
in the `finally` path on both success and failure. -/
def handleSendMessage (s : AppState) (input : String)
    (outcome : Except Unit QueryResp) : AppState × List Eff :=
  let message := jsTrim input
  if message == "" || s.isProcessing then (s, [])
  else
    let pre := [Eff.render message "user" none false, Eff.showLoading,
      Eff.setSendDisabled true]
    let s1 := { s with isProcessing := true }
    match outcome with
    | .ok data =>
        let sid := if strTruthy data.sessionIdField then data.sessionIdField
          else s1.sessionId
        let s2 := { s1 with sessionId := sid }
        let nav :=
          if strTruthy data.targetRoute then
            [Eff.navigateEff (stripHash (data.targetRoute.getD ""))]
          else []
        ({ s2 with isProcessing := false },
         pre ++ [Eff.removeLoading,
           Eff.render data.content "bot" data.toolUsed false] ++ nav ++
           [Eff.setSendDisabled false, Eff.focusInput])
    | .error _ =>
        ({ s1 with isProcessing := false },
         pre ++ [Eff.consoleLog "Error", Eff.removeLoading,
           Eff.render
             "Sorry, I encountered an error processing your request. Please try again."
             "bot" none true,
           Eff.setSendDisabled false, Eff.focusInput])

/-- Model of `handleFileUpload(e)` for the chosen file (by name) with the upload
outcome: no-op without a file; otherwise show the progress status,
disable the button, surface success or the error status, and re-enable
the button and reset the input in the `finally` path. -/
def handleFileUpload (s : AppState) (file : Option String)
    (outcome : Except (Option String) Unit) : AppState × List Eff :=
  match file with
  | none => (s, [])
  | some name =>
      let pre := [Eff.setUploadStatus ("Uploading " ++ name ++ "...")
          "upload-status", Eff.setUploadDisabled true]
      let mid := match outcome with
        | .ok _ =>
            [Eff.setUploadStatus ("✓ " ++ name ++ " ingested!")
              "upload-status success",
             Eff.render ("I\x27ve processed the file \"" ++ name ++
               "\". You can now ask me questions about its content!")
               "bot" none false]
        | .error detail =>
            [Eff.consoleLog "Upload error",
             Eff.setUploadStatus
               ("✗ Error: " ++ (jsOr detail (some "Upload failed")).getD "")
               "upload-status error"]
      (s, pre ++ mid ++ [Eff.setUploadDisabled false, Eff.resetFileInput])

/-- Event-loop tasks: inbound envelopes, the armed fallback timeout, the
assist lookup continuation, user capture start/stop, playback terminal
callbacks and capture buffers. -/
inductive Event where
  | msg (m : InMsg)
  | timerFire
  | assistResult (r : AssistOutcome)
  | stopRec
  | startRec (mode : String) (micOk : Bool)
  | audioEnded
  | audioError
  | capture (samples : List ℚ)

/-- One event-loop task at time `now`.  A `timerFire` runs the fallback
callback only when it is the armed timeout (the stored deadline matches);
a cancelled or absent timeout makes the task a silent no-op. -/
def step (s : AppState) : Nat × Event → AppState × List Eff
  | (now, .msg m) => handleLiveMessage now s m
  | (now, .timerFire) =>
      if s.navResponseTimeout = some now then
        navFallbackFire { s with navResponseTimeout := none }
      else (s, [])
  | (_, .assistResult r) => handleNavAssistResult s r
  | (_, .stopRec) => stopRecording s
  | (_, .startRec mode micOk) => startRecording s mode micOk
  | (_, .audioEnded) => audioPlaybackDone s
  | (_, .audioError) => audioPlaybackDone s
  | (_, .capture samples) => (s, onAudioProcess s samples)

/-- Run a sequence of timed event-loop tasks, concatenating the effects. -/
def run (s : AppState) : List (Nat × Event) → AppState × List Eff
  | [] => (s, [])
  | e :: rest =>
      let r1 := step s e
      let r2 := run r1.1 rest
      (r2.1, r1.2 ++ r2.2)

/-! Helper lemmas about the WAV container. -/

/-- The bytes before the data-size field occupy exactly 40 positions. -/
lemma wavHeaderPre_length (r d : Nat) : (wavHeaderPre r d).length = 40 := rfl

/-- Reading 32 bits little-endian at the offset where a `setUint32` wrote
them recovers the written value modulo 2 ^ 32. -/
lemma readU32le_at (pre post : List Nat) (n i : Nat) (h : pre.length = i) :
    readU32le (pre ++ (u32le n ++ post)) i = n % 4294967296 := by
  have hd : (pre ++ (u32le n ++ post)).drop i = u32le n ++ post := by
    subst h; exact List.drop_left _ _
  unfold readU32le
  rw [hd]
  simp only [u32le, List.cons_append, List.nil_append]
  omega

/-- The payload of an assembled clip is exactly the PCM bytes. -/
lemma createWavBlob_drop44 (pcm : List Nat) (r : Nat) :
    (createWavBlob pcm r).drop 44 = pcm := by
  have h : (wavHeaderPre r pcm.length ++ u32le pcm.length).length = 44 := by
    simp [wavHeaderPre_length, u32le]
  calc (createWavBlob pcm r).drop 44
      = ((wavHeaderPre r pcm.length ++ u32le pcm.length) ++ pcm).drop
          (wavHeaderPre r pcm.length ++ u32le pcm.length).length := by
        rw [h]; simp [createWavBlob, List.append_assoc]
    _ = pcm := List.drop_left _ _

/-- The data-size field (offset 40) declares the payload length. -/
lemma createWavBlob_dataSize (pcm : List Nat) (r : Nat) :
    readU32le (createWavBlob pcm r) 40 = pcm.length % 4294967296 := by
  have h := readU32le_at (wavHeaderPre r pcm.length) pcm pcm.length 40
    (wavHeaderPre_length r pcm.length)
  simpa [createWavBlob, List.append_assoc] using h

/-- The RIFF-size field (offset 4) declares 36 + payload length. -/
lemma createWavBlob_riffSize (pcm : List Nat) (r : Nat) :
    readU32le (createWavBlob pcm r) 4 = (36 + pcm.length) % 4294967296 := by
  have h := readU32le_at (asciiBytes "RIFF")
    (asciiBytes "WAVE" ++ asciiBytes "fmt " ++ u32le 16 ++ u16le 1 ++ u16le 1 ++
      u32le r ++ u32le (r * 2) ++ u16le 2 ++ u16le 16 ++ asciiBytes "data" ++
      u32le pcm.length ++ pcm)
    (36 + pcm.length) 4 rfl
  simpa [createWavBlob, wavHeaderPre, List.append_assoc] using h

/-- The sample-rate field (offset 24) declares the build rate. -/
lemma createWavBlob_rate (pcm : List Nat) (r : Nat) :
    readU32le (createWavBlob pcm r) 24 = r % 4294967296 := by
  have h := readU32le_at
    (asciiBytes "RIFF" ++ u32le (36 + pcm.length) ++ asciiBytes "WAVE" ++
      asciiBytes "fmt " ++ u32le 16 ++ u16le 1 ++ u16le 1)
    (u32le (r * 2) ++ u16le 2 ++ u16le 16 ++ asciiBytes "data" ++
      u32le pcm.length ++ pcm)
    r 24 rfl
  simpa [createWavBlob, wavHeaderPre, List.append_assoc] using h

/-- Lemma: `finalizeAudioResponse` hands exactly the clip
`createWavBlob (concat fragments) declaredRate` to the playback queue:
afterwards it sits in the queue or is already the active clip. -/
lemma finalizeAudioResponse_enqueues (s : AppState)
    (h : s.pendingAudioChunks ≠ []) :
    createWavBlob (concatUint8Arrays s.pendingAudioChunks)
        (rateOrDefault (getSampleRateFromMime s.pendingAudioMimeType)) ∈
      (finalizeAudioResponse s).1.audioQueue ∨
    (finalizeAudioResponse s).1.activeAudio =
      some (createWavBlob (concatUint8Arrays s.pendingAudioChunks)
        (rateOrDefault (getSampleRateFromMime s.pendingAudioMimeType))) := by
  cases hc : s.pendingAudioChunks with
  | nil => exact absurd hc h
  | cons c cs =>
    cases hq : s.audioQueue with
    | nil =>
      cases hp : s.isPlayingAudio <;> cases hi : s.hasShownAudioIndicator <;>
        simp [finalizeAudioResponse, playNextAudio, hc, hq, hp, hi]
    | cons q qs =>
      cases hp : s.isPlayingAudio <;> cases hi : s.hasShownAudioIndicator <;>
        simp [finalizeAudioResponse, playNextAudio, hc, hq, hp, hi]

/-- C2: for a turn ending with `turn_complete` while suppression is unset
and with buffered fragments, the assembled clip's payload (bytes after the
44-byte header) is the concatenation of the fragments in arrival order,
its length is the sum of the fragments' byte lengths, the data-size field
at offset 40 equals that length, and the RIFF-size field at offset 4
equals 36 plus that length. -/
theorem c2_fragment_conservation (now : Nat) (s : AppState)
    (hsup : s.navSuppressRealtime = false)
    (hne : s.pendingAudioChunks ≠ [])
    (hsz : 36 + (concatUint8Arrays s.pendingAudioChunks).length < 4294967296) :
    (createWavBlob (concatUint8Arrays s.pendingAudioChunks)
        (rateOrDefault (getSampleRateFromMime s.pendingAudioMimeType)) ∈
      (handleLiveMessage now s .turnComplete).1.audioQueue ∨
     (handleLiveMessage now s .turnComplete).1.activeAudio =
      some (createWavBlob (concatUint8Arrays s.pendingAudioChunks)
        (rateOrDefault (getSampleRateFromMime s.pendingAudioMimeType)))) ∧
    (createWavBlob (concatUint8Arrays s.pendingAudioChunks)
        (rateOrDefault (getSampleRateFromMime s.pendingAudioMimeType))).drop 44 =
      concatUint8Arrays s.pendingAudioChunks ∧
    (concatUint8Arrays s.pendingAudioChunks).length =
      (s.pendingAudioChunks.map List.length).sum ∧
    readU32le (createWavBlob (concatUint8Arrays s.pendingAudioChunks)
        (rateOrDefault (getSampleRateFromMime s.pendingAudioMimeType))) 40 =
      (concatUint8Arrays s.pendingAudioChunks).length ∧
    readU32le (createWavBlob (concatUint8Arrays s.pendingAudioChunks)
        (rateOrDefault (getSampleRateFromMime s.pendingAudioMimeType))) 4 =
      36 + (concatUint8Arrays s.pendingAudioChunks).length := by
  have hclear : clearNavSpeechFallback s =
      { s with navResponseTimeout := none } := rfl
  have hmem := finalizeAudioResponse_enqueues (clearNavSpeechFallback s)
    (by simpa [clearNavSpeechFallback] using hne)
  refine ⟨?_, createWavBlob_drop44 _ _, ?_, ?_, ?_⟩
  · have hneb : (clearNavSpeechFallback s).pendingAudioChunks.isEmpty = false := by
      cases hc : s.pendingAudioChunks with
      | nil => exact absurd hc hne
      | cons c cs => simp [clearNavSpeechFallback, hc]
    simpa [handleLiveMessage, hsup, clearNavSpeechFallback, hneb, hne] using hmem
  · simp [concatUint8Arrays, List.length_flatten]
  · rw [createWavBlob_dataSize]
    omega
  · rw [createWavBlob_riffSize]
    omega

/-- The initial values of the script's globals (all null/false/empty,
location hash empty before the first navigation). -/
def initState : AppState where
  sessionId := none
  isProcessing := false
  isRecording := false
  wsOpen := false
  mediaRecorderSet := false
  audioCtxSet := false
  pendingAudioChunks := []
  pendingAudioMimeType := none
  audioQueue := []
  isPlayingAudio := false
  hasShownAudioIndicator := false
  activeRecordingMode := none
  activeRecordingTargetSet := false
  navAwaitingResponse := false
  lastResponseText := none
  navResponseTimeout := none
  navSuppressRealtime := false
  awaitingRealtimeResponse := false
  activeAudio := none
  currentHash := ""

/-- A concrete mid-turn state with two buffered fragments, used to
instantiate the fragment-conservation theorem. -/
def c2state : AppState :=
  { initState with
      awaitingRealtimeResponse := true,
      pendingAudioChunks := [[1, 2], [3]],
      pendingAudioMimeType := some "audio/pcm;rate=16000" }

/-- Witness for C2 at a concrete mid-turn state with two buffered
fragments. -/
theorem c2_fragment_conservation_witness :
    c2state.navSuppressRealtime = false ∧
    c2state.pendingAudioChunks ≠ [] ∧
    36 + (concatUint8Arrays c2state.pendingAudioChunks).length < 4294967296 ∧
    (createWavBlob (concatUint8Arrays c2state.pendingAudioChunks)
        (rateOrDefault (getSampleRateFromMime c2state.pendingAudioMimeType)) ∈
      (handleLiveMessage 0 c2state .turnComplete).1.audioQueue ∨
     (handleLiveMessage 0 c2state .turnComplete).1.activeAudio =
      some (createWavBlob (concatUint8Arrays c2state.pendingAudioChunks)
        (rateOrDefault (getSampleRateFromMime c2state.pendingAudioMimeType)))) ∧
    (createWavBlob (concatUint8Arrays c2state.pendingAudioChunks)
        (rateOrDefault (getSampleRateFromMime c2state.pendingAudioMimeType))).drop 44 =
      concatUint8Arrays c2state.pendingAudioChunks ∧
    (concatUint8Arrays c2state.pendingAudioChunks).length =
      (c2state.pendingAudioChunks.map List.length).sum ∧
    readU32le (createWavBlob (concatUint8Arrays c2state.pendingAudioChunks)
        (rateOrDefault (getSampleRateFromMime c2state.pendingAudioMimeType))) 40 =
      (concatUint8Arrays c2state.pendingAudioChunks).length ∧
    readU32le (createWavBlob (concatUint8Arrays c2state.pendingAudioChunks)
        (rateOrDefault (getSampleRateFromMime c2state.pendingAudioMimeType))) 4 =
      36 + (concatUint8Arrays c2state.pendingAudioChunks).length := by
  refine ⟨rfl, by decide, by decide, ?_⟩
  exact c2_fragment_conservation 0 c2state rfl (by decide) (by decide)

/-- Buffer a turn's sequence of audio fragments (decoded bytes, mime tag)
through `bufferAudioChunk` in arrival order. -/
def bufferAll (s : AppState) (frags : List (List Nat × Option String)) :
    AppState :=
  frags.foldl (fun st f => bufferAudioChunk st f.1 f.2) s

/-- Spec-side description of the tag rule: the truthy mime tag of the
last non-empty fragment that carried one. -/
def lastTruthyTag : List (List Nat × Option String) → Option String
  | [] => none
  | f :: rest =>
      match lastTruthyTag rest with
      | some m => some m
      | none => if !f.1.isEmpty && strTruthy f.2 then f.2 else none

/-- Whether any fragment carries a non-empty byte payload. -/
def anyNonEmptyFrag : List (List Nat × Option String) → Bool
  | [] => false
  | f :: rest => !f.1.isEmpty || anyNonEmptyFrag rest

/-- Spec-side declared tag of a buffered turn: the last truthy tag wins;
with none, the default synthesized-speech tag once any non-empty fragment
arrived. -/
def lastDeclaredMime (frags : List (List Nat × Option String)) : Option String :=
  match lastTruthyTag frags with
  | some m => some m
  | none =>
      if anyNonEmptyFrag frags then some "audio/pcm;rate=24000" else none

/-- Lemma: `jsOr` keeps a truthy first operand. -/
lemma jsOr_truthy (a b : Option String) (h : strTruthy a = true) :
    jsOr a b = a := by simp [jsOr, h]

/-- Lemma: `jsOr` falls through a falsy first operand. -/
lemma jsOr_falsy (a b : Option String) (h : strTruthy a = false) :
    jsOr a b = b := by simp [jsOr, h]

/-- Lemma: `jsOr` onto the non-empty default tag is always truthy. -/
lemma strTruthy_jsOr_default (a : Option String) :
    strTruthy (jsOr a (some "audio/pcm;rate=24000")) = true := by
  cases h : strTruthy a with
  | true => rw [jsOr_truthy a _ h]; exact h
  | false => rw [jsOr_falsy a _ h]; decide

/-- The fold of the update rule
`mimeType || pendingAudioMimeType || default` over a fragment sequence. -/
lemma bufferAll_mime (frags : List (List Nat × Option String)) :
    ∀ s : AppState,
      (bufferAll s frags).pendingAudioMimeType =
        (match lastTruthyTag frags with
         | some m => some m
         | none =>
             if anyNonEmptyFrag frags then
               jsOr s.pendingAudioMimeType (some "audio/pcm;rate=24000")
             else s.pendingAudioMimeType) := by
  induction frags with
  | nil => intro s; simp [bufferAll, lastTruthyTag, anyNonEmptyFrag]
  | cons f rest ih =>
    intro s
    have hstep : bufferAll s (f :: rest) =
        bufferAll (bufferAudioChunk s f.1 f.2) rest := rfl
    cases hf : f.1.isEmpty with
    | true =>
      have hb : bufferAudioChunk s f.1 f.2 = s := by
        simp [bufferAudioChunk, hf]
      rw [hstep, hb, ih s]
      cases hl : lastTruthyTag rest <;>
        simp [lastTruthyTag, anyNonEmptyFrag, hf, hl]
    | false =>
      have hb : (bufferAudioChunk s f.1 f.2).pendingAudioMimeType =
          jsOr f.2 (jsOr s.pendingAudioMimeType (some "audio/pcm;rate=24000")) := by
        simp [bufferAudioChunk, hf]
      rw [hstep, ih (bufferAudioChunk s f.1 f.2)]
      cases hl : lastTruthyTag rest with
      | some m => simp [lastTruthyTag, hl]
      | none =>
        have hM : strTruthy
            (bufferAudioChunk s f.1 f.2).pendingAudioMimeType = true := by
          rw [hb]
          cases ht : strTruthy f.2 with
          | true => rw [jsOr_truthy _ _ ht]; exact ht
          | false => rw [jsOr_falsy _ _ ht]; exact strTruthy_jsOr_default _
        have hL : (match (none : Option String) with
            | some m => some m
            | none =>
                if anyNonEmptyFrag rest then
                  jsOr (bufferAudioChunk s f.1 f.2).pendingAudioMimeType
                    (some "audio/pcm;rate=24000")
                else (bufferAudioChunk s f.1 f.2).pendingAudioMimeType) =
            (bufferAudioChunk s f.1 f.2).pendingAudioMimeType := by
          cases hr : anyNonEmptyFrag rest with
          | true => simp [jsOr_truthy _ _ hM]
          | false => simp
        rw [hL, hb]
        cases ht : strTruthy f.2 with
        | true =>
          cases hv : f.2 with
          | none => rw [hv] at ht; simp [strTruthy] at ht
          | some v =>
            rw [hv] at ht
            simp [lastTruthyTag, hl, hf, hv, ht, jsOr]
        | false =>
          simp [lastTruthyTag, hl, hf, ht, anyNonEmptyFrag,
            jsOr_falsy _ _ ht]

/-- Buffering never removes fragments. -/
lemma bufferAll_chunks_ne (frags : List (List Nat × Option String)) :
    ∀ s : AppState,
      s.pendingAudioChunks ≠ [] ∨ anyNonEmptyFrag frags = true →
      (bufferAll s frags).pendingAudioChunks ≠ [] := by
  induction frags with
  | nil =>
    intro s h
    rcases h with h | h
    · exact h
    · simp [anyNonEmptyFrag] at h
  | cons f rest ih =>
    intro s h
    have hstep : bufferAll s (f :: rest) =
        bufferAll (bufferAudioChunk s f.1 f.2) rest := rfl
    rw [hstep]
    cases hf : f.1.isEmpty with
    | true =>
      have hb : bufferAudioChunk s f.1 f.2 = s := by
        simp [bufferAudioChunk, hf]
      rw [hb]
      apply ih s
      rcases h with h | h
      · exact Or.inl h
      · simp [anyNonEmptyFrag, hf] at h
        exact Or.inr h
    | false =>
      apply ih
      left
      simp [bufferAudioChunk, hf]

/-- C7 counterexample: two fragments tagged `rate=16000` then `rate=32000`
arrive for one turn; the assembled clip's header declares 32000 (the later
tag overrode the first one), not the claimed first-tag 16000. -/
theorem c7_counterexample :
    (run { initState with
        awaitingRealtimeResponse := true, isPlayingAudio := true }
      [(0, .msg (.audio [1] (some "audio/pcm;rate=16000"))),
       (1, .msg (.audio [2] (some "audio/pcm;rate=32000"))),
       (2, .msg .turnComplete)]).1.audioQueue =
      [createWavBlob [1, 2] 32000] ∧
    readU32le (createWavBlob [1, 2] 32000) 24 = 32000 ∧
    ¬ readU32le (createWavBlob [1, 2] 32000) 24 = 16000 := by
  refine ⟨by decide, by decide, by decide⟩

/-- C7 amended: for a turn whose fragments are buffered from an empty
fragment state, the mime tag governing the assembled clip's declared
sample rate is the one of the LAST non-empty fragment carrying a truthy
tag - later non-null tags override earlier ones - and the rate defaults
to 24000 when no fragment of the turn carried a tag; the clip assembled
at finalization declares exactly that rate in its header. -/
theorem c7_last_tag_wins (s : AppState)
    (frags : List (List Nat × Option String))
    (h1 : s.pendingAudioMimeType = none)
    (hne : anyNonEmptyFrag frags = true)
    (hlt : rateOrDefault (getSampleRateFromMime (lastDeclaredMime frags)) <
      4294967296) :
    (bufferAll s frags).pendingAudioMimeType = lastDeclaredMime frags ∧
    readU32le
      (createWavBlob (concatUint8Arrays (bufferAll s frags).pendingAudioChunks)
        (rateOrDefault (getSampleRateFromMime
          (bufferAll s frags).pendingAudioMimeType))) 24 =
      rateOrDefault (getSampleRateFromMime (lastDeclaredMime frags)) ∧
    (createWavBlob (concatUint8Arrays (bufferAll s frags).pendingAudioChunks)
        (rateOrDefault (getSampleRateFromMime
          (bufferAll s frags).pendingAudioMimeType)) ∈
      (finalizeAudioResponse (bufferAll s frags)).1.audioQueue ∨
     (finalizeAudioResponse (bufferAll s frags)).1.activeAudio =
      some (createWavBlob
        (concatUint8Arrays (bufferAll s frags).pendingAudioChunks)
        (rateOrDefault (getSampleRateFromMime
          (bufferAll s frags).pendingAudioMimeType)))) := by
  have hmime : (bufferAll s frags).pendingAudioMimeType =
      lastDeclaredMime frags := by
    rw [bufferAll_mime frags s, lastDeclaredMime]
    cases hl : lastTruthyTag frags with
    | some m => rfl
    | none => simp [hne, h1, jsOr, strTruthy]
  refine ⟨hmime, ?_, ?_⟩
  · rw [hmime, createWavBlob_rate]
    exact Nat.mod_eq_of_lt hlt
  · exact finalizeAudioResponse_enqueues _
      (bufferAll_chunks_ne frags s (Or.inr hne))

/-- A concrete fragment sequence whose truthy tags disagree, used to
instantiate the last-tag theorem. -/
def c7frags : List (List Nat × Option String) :=
  [([1], some "audio/pcm;rate=16000"), ([2], some "audio/pcm;rate=32000"),
   ([3], none)]

/-- Witness for the amended C7 at a concrete fragment sequence. -/
theorem c7_last_tag_wins_witness :
    initState.pendingAudioMimeType = none ∧
    anyNonEmptyFrag c7frags = true ∧
    rateOrDefault (getSampleRateFromMime (lastDeclaredMime c7frags)) <
      4294967296 ∧
    ((bufferAll initState c7frags).pendingAudioMimeType =
      lastDeclaredMime c7frags ∧
    readU32le
      (createWavBlob
        (concatUint8Arrays (bufferAll initState c7frags).pendingAudioChunks)
        (rateOrDefault (getSampleRateFromMime
          (bufferAll initState c7frags).pendingAudioMimeType))) 24 =
      rateOrDefault (getSampleRateFromMime (lastDeclaredMime c7frags)) ∧
    (createWavBlob
        (concatUint8Arrays (bufferAll initState c7frags).pendingAudioChunks)
        (rateOrDefault (getSampleRateFromMime
          (bufferAll initState c7frags).pendingAudioMimeType)) ∈
      (finalizeAudioResponse (bufferAll initState c7frags)).1.audioQueue ∨
     (finalizeAudioResponse (bufferAll initState c7frags)).1.activeAudio =
      some (createWavBlob
        (concatUint8Arrays (bufferAll initState c7frags).pendingAudioChunks)
        (rateOrDefault (getSampleRateFromMime
          (bufferAll initState c7frags).pendingAudioMimeType))))) :=
  ⟨rfl, by decide, by decide,
    c7_last_tag_wins initState c7frags rfl (by decide) (by decide)⟩

/-- Recognizer for local speech-synthesis effects. -/
def isSpeakEff : Eff → Bool
  | Eff.speak _ _ => true
  | _ => false

/-- A mid-turn state right after a nav recording stopped: the nav answer
is pending and the autonomous turn is in flight. -/
def c1state : AppState :=
  { initState with navAwaitingResponse := true, awaitingRealtimeResponse := true }

/-- C1: the `handled = true` assist outcome sets the suppression flag, yet
an autonomous `text` envelope arriving afterwards in the same turn is
still rendered as a visible bot message (the discard guard tests
`navSuppressRealtime && navAwaitingResponse` and the handled branch has
just cleared `navAwaitingResponse`), while an `audio` envelope is
discarded; this exhibits the code-level violation of the claimed
exclusivity. -/
theorem c1_text_rendered_after_handled :
    (handleNavAssistResult c1state
      (.success (some "Opening the dashboard") none true)).1.navSuppressRealtime
      = true ∧
    Eff.render "Here is the dashboard overview." "bot" none false ∈
      (run c1state
        [(0, .assistResult (.success (some "Opening the dashboard") none true)),
         (1, .msg (.text "Here is the dashboard overview." false)),
         (2, .msg (.audio [7] none))]).2 ∧
    (run c1state
        [(0, .assistResult (.success (some "Opening the dashboard") none true)),
         (1, .msg (.text "Here is the dashboard overview." false)),
         (2, .msg (.audio [7] none))]).1.pendingAudioChunks = [] := by
  refine ⟨by decide, by decide, by decide⟩

/-- C3: a text envelope processed while the nav answer is pending with
suppression unset and no fragment buffered arms the 2500 ms fallback; if
the timer fires at its deadline with no audio and no handled outcome in
between, the remembered candidate is spoken exactly once and the
nav-awaiting flag is cleared. -/
theorem c3_timer_race (s : AppState) (t : Nat) (content : String) (pn : Bool)
    (h1 : s.navAwaitingResponse = true)
    (h2 : s.navSuppressRealtime = false)
    (h3 : s.pendingAudioChunks = [])
    (h4 : isNavigationPayload content pn = false)
    (h5 : content ≠ "") :
    (step s (t, .msg (.text content pn))).1.navResponseTimeout =
      some (t + 2500) ∧
    (run s [(t, .msg (.text content pn)),
      (t + 2500, .timerFire)]).2.countP isSpeakEff = 1 ∧
    Eff.speak content (speechLang content) ∈
      (run s [(t, .msg (.text content pn)), (t + 2500, .timerFire)]).2 ∧
    (run s [(t, .msg (.text content pn)),
      (t + 2500, .timerFire)]).1.navAwaitingResponse = false := by
  have h5' : (content == "") = false := by
    rw [beq_eq_false_iff_ne]; exact h5
  refine ⟨?_, ?_, ?_, ?_⟩ <;>
    simp [run, step, handleLiveMessage, scheduleNavSpeechFallback,
      navFallbackFire, speakTextResponse, clearNavSpeechFallback,
      navRespondingEff, isSpeakEff, strTruthy, List.countP_cons,
      List.countP_nil, h1, h2, h3, h4, h5']

/-- A state with a pending nav answer and nothing buffered, used to
instantiate the timer-race theorem. -/
def c3state : AppState :=
  { initState with navAwaitingResponse := true, awaitingRealtimeResponse := true }

/-- Witness for C3 at a concrete state and text envelope. -/
theorem c3_timer_race_witness :
    c3state.navAwaitingResponse = true ∧
    c3state.navSuppressRealtime = false ∧
    c3state.pendingAudioChunks = [] ∧
    isNavigationPayload "Hello" false = false ∧
    "Hello" ≠ "" ∧
    ((step c3state (10, .msg (.text "Hello" false))).1.navResponseTimeout =
      some 2510 ∧
    (run c3state [(10, .msg (.text "Hello" false)),
      (2510, .timerFire)]).2.countP isSpeakEff = 1 ∧
    Eff.speak "Hello" (speechLang "Hello") ∈
      (run c3state [(10, .msg (.text "Hello" false)), (2510, .timerFire)]).2 ∧
    (run c3state [(10, .msg (.text "Hello" false)),
      (2510, .timerFire)]).1.navAwaitingResponse = false) :=
  ⟨rfl, rfl, rfl, by decide, by decide,
    c3_timer_race c3state 10 "Hello" false rfl rfl rfl (by decide) (by decide)⟩

/-- C4: with the fallback timer armed, an audio envelope accepted for the
turn (awaiting flag set, suppression unset) cancels the pending timer, and
a later fire of the 2500 ms timeout is a dead callback: no local speech
synthesis happens for that turn. -/
theorem c4_timer_preemption (s : AppState) (d t1 : Nat) (bytes : List Nat)
    (mime : Option String)
    (_h1 : s.navResponseTimeout = some d)
    (h2 : s.awaitingRealtimeResponse = true)
    (h3 : s.navSuppressRealtime = false) :
    (step s (t1, .msg (.audio bytes mime))).1.navResponseTimeout = none ∧
    ∀ t2, (run s [(t1, .msg (.audio bytes mime)),
      (t2, .timerFire)]).2.countP isSpeakEff = 0 := by
  have hbuf : ∀ s' : AppState,
      (bufferAudioChunk s' bytes mime).navResponseTimeout =
        s'.navResponseTimeout := by
    intro s'
    cases hb : bytes.isEmpty <;> simp [bufferAudioChunk, hb]
  constructor
  · simp [step, handleLiveMessage, h2, h3, hbuf, clearNavSpeechFallback]
  · intro t2
    simp [run, step, handleLiveMessage, h2, h3, hbuf, clearNavSpeechFallback,
      navRespondingEff, navFallbackFire, isSpeakEff, List.countP_cons,
      List.countP_nil]

/-- A state with the fallback timer armed for deadline 2600 and an
autonomous turn in flight, used to instantiate the preemption theorem. -/
def c4state : AppState :=
  { initState with
      navResponseTimeout := some 2600,
      awaitingRealtimeResponse := true, navAwaitingResponse := true,
      lastResponseText := some "Hi" }

/-- Witness for C4: audio at 1000 ms, the timer deadline at 2600 ms. -/
theorem c4_timer_preemption_witness :
    c4state.navResponseTimeout = some 2600 ∧
    c4state.awaitingRealtimeResponse = true ∧
    c4state.navSuppressRealtime = false ∧
    (step c4state (1000, .msg (.audio [9] none))).1.navResponseTimeout =
      none ∧
    (run c4state [(1000, .msg (.audio [9] none)),
      (2600, .timerFire)]).2.countP isSpeakEff = 0 :=
  ⟨rfl, rfl, rfl,
    (c4_timer_preemption c4state 2600 1000 [9] none rfl rfl rfl).1,
    (c4_timer_preemption c4state 2600 1000 [9] none rfl rfl rfl).2 2600⟩

/-- An idle connected state: channel open, nothing recording. -/
def c5state : AppState := { initState with wsOpen := true }

/-- C5 counterexample: with no recording session active, `stopRecording`
is not a no-op - it already sends an `audio_stream_end` envelope - and a
second consecutive call sends the envelope again. -/
theorem c5_counterexample :
    c5state.isRecording = false ∧
    (stopRecording c5state).2 ≠ [] ∧
    Eff.sendEnvelope .audioStreamEnd ∈ (stopRecording c5state).2 ∧
    Eff.sendEnvelope .audioStreamEnd ∈
      (stopRecording (stopRecording c5state).1).2 :=
  ⟨rfl, by decide, by decide, by decide⟩

/-- C5 amended: `stopRecording` is idempotent on the client state - a
second consecutive call reproduces the same state - but not on observable
effects: every call, including one with no active session, sends the
`audio_stream_end` envelope exactly when the channel is open. -/
theorem c5_stop_state_idempotent (s : AppState) :
    (stopRecording (stopRecording s).1).1 = (stopRecording s).1 ∧
    (Eff.sendEnvelope .audioStreamEnd ∈
      (stopRecording (stopRecording s).1).2 ↔ s.wsOpen = true) := by
  constructor
  · simp [stopRecording]
  · cases hm : s.mediaRecorderSet <;> cases hw : s.wsOpen <;>
      simp [stopRecording, hm, hw]

/-- Recognizer for playback-queue effects (play / release of a clip). -/
def isPlaybackEff : Eff → Bool
  | Eff.playAudio _ => true
  | Eff.revokeUrl _ => true
  | _ => false

/-- Terminal playback callback: natural end or playback error. -/
def doneEvent (err : Bool) : Event :=
  if err then Event.audioError else Event.audioEnded

/-- The two-turn playback scenario: fragment `a` arrives and its turn
completes, a new capture stop re-arms the turn, fragment `b` arrives and
its turn completes, then the two clips terminate in order. -/
def c6run (a b : List Nat) (ea eb : Bool) : AppState × List Eff :=
  run { initState with awaitingRealtimeResponse := true }
    [(0, .msg (.audio a none)), (1, .msg .turnComplete), (2, .stopRec),
     (3, .msg (.audio b none)), (4, .msg .turnComplete),
     (5, doneEvent ea), (6, doneEvent eb)]

set_option maxHeartbeats 2000000 in
/-- C6: for clips A then B assembled from two turns, the playback effects
are exactly play A, release A, play B, release B - A terminates (end or
error) and its handle is released strictly before B starts, regardless of
how each playback terminates - and once the queue empties the playing
flag is cleared, the active handle dropped, and the status reset to
Ready. -/
theorem c6_queue_ordering (a b : List Nat) (ea eb : Bool)
    (ha : a ≠ []) (hb : b ≠ []) :
    (c6run a b ea eb).2.filter isPlaybackEff =
      [Eff.playAudio (createWavBlob a 24000),
       Eff.revokeUrl (createWavBlob a 24000),
       Eff.playAudio (createWavBlob b 24000),
       Eff.revokeUrl (createWavBlob b 24000)] ∧
    (c6run a b ea eb).1.isPlayingAudio = false ∧
    (c6run a b ea eb).1.audioQueue = [] ∧
    (c6run a b ea eb).1.activeAudio = none ∧
    Eff.statusUpdate "connected" "Ready" ∈ (c6run a b ea eb).2 := by
  have hrate : rateOrDefault (getSampleRateFromMime
      (some "audio/pcm;rate=24000")) = 24000 := by decide
  cases a with
  | nil => exact absurd rfl ha
  | cons x xs =>
    cases b with
    | nil => exact absurd rfl hb
    | cons y ys =>
      cases ea <;> cases eb <;>
        refine ⟨?_, ?_, ?_, ?_, ?_⟩ <;>
          simp [c6run, run, step, doneEvent, handleLiveMessage,
            bufferAudioChunk, finalizeAudioResponse, playNextAudio,
            audioPlaybackDone, clearNavSpeechFallback, navRespondingEff,
            stopRecording, concatUint8Arrays, jsOr, strTruthy, hrate,
            isPlaybackEff, initState, List.filter_cons, List.filter_nil]

/-- Witness for C6 with singleton clips, the first ending naturally and
the second failing. -/
theorem c6_queue_ordering_witness :
    ([1] : List Nat) ≠ [] ∧ ([2] : List Nat) ≠ [] ∧
    ((c6run [1] [2] false true).2.filter isPlaybackEff =
      [Eff.playAudio (createWavBlob [1] 24000),
       Eff.revokeUrl (createWavBlob [1] 24000),
       Eff.playAudio (createWavBlob [2] 24000),
       Eff.revokeUrl (createWavBlob [2] 24000)] ∧
     (c6run [1] [2] false true).1.isPlayingAudio = false ∧
     (c6run [1] [2] false true).1.audioQueue = [] ∧
     (c6run [1] [2] false true).1.activeAudio = none ∧
     Eff.statusUpdate "connected" "Ready" ∈ (c6run [1] [2] false true).2) :=
  ⟨by decide, by decide,
    c6_queue_ordering [1] [2] false true (by decide) (by decide)⟩

/-- The converted 16-bit value of any sample lies in the int16 range:
clamping bounds the product, truncation toward zero keeps the bounds. -/
lemma pcmSample_bounds (s : ℚ) :
    -32768 ≤ pcmSample s ∧ pcmSample s ≤ 32767 := by
  have hc1 : (-1 : ℚ) ≤ clampSample s := le_max_left _ _
  have hc2 : clampSample s ≤ 1 := max_le (by norm_num) (min_le_left _ _)
  simp only [pcmSample, jsTrunc]
  by_cases hneg : clampSample s < 0
  · have hq1 : (-32768 : ℚ) ≤ clampSample s * 32768 := by nlinarith
    have h0 : ¬ (0 : ℚ) ≤ clampSample s * 32768 := by nlinarith
    rw [if_pos hneg, if_neg h0]
    constructor
    · have : ((-32768 : ℤ) : ℚ) ≤ clampSample s * 32768 := by
        push_cast; exact hq1
      calc (-32768 : ℤ) = ⌈((-32768 : ℤ) : ℚ)⌉ := (Int.ceil_intCast _).symm
        _ ≤ ⌈clampSample s * 32768⌉ := Int.ceil_le_ceil this
    · have hq2 : clampSample s * 32768 ≤ 0 := by nlinarith
      have : ⌈clampSample s * 32768⌉ ≤ (0 : ℤ) :=
        Int.ceil_le.mpr (by exact_mod_cast hq2)
      omega
  · have hge : (0 : ℚ) ≤ clampSample s := not_lt.mp hneg
    have hq1 : (0 : ℚ) ≤ clampSample s * 32767 := by nlinarith
    rw [if_neg hneg, if_pos hq1]
    constructor
    · have := Int.floor_nonneg.mpr hq1
      omega
    · have hq2 : clampSample s * 32767 ≤ ((32767 : ℤ) : ℚ) := by
        push_cast; nlinarith
      calc ⌊clampSample s * 32767⌋ ≤ ⌊((32767 : ℤ) : ℚ)⌋ :=
            Int.floor_le_floor hq2
        _ = 32767 := Int.floor_intCast _

/-- Reading the two stored little-endian bytes back as a signed 16-bit
value recovers an in-range integer. -/
lemma readI16le_cons (n : ℤ) (tail : List Nat)
    (h1 : -32768 ≤ n) (h2 : n ≤ 32767) :
    readI16le (int16Bits n % 256 :: int16Bits n / 256 :: tail) 0 = n := by
  have hmod : (0 : ℤ) ≤ n % 65536 := Int.emod_nonneg n (by norm_num)
  have hmlt : n % 65536 < 65536 := Int.emod_lt_of_pos n (by norm_num)
  have hcast : ((int16Bits n : Nat) : ℤ) = n % 65536 := by
    unfold int16Bits
    exact Int.toNat_of_nonneg hmod
  have hm : int16Bits n % 256 + 256 * (int16Bits n / 256) = int16Bits n := by
    omega
  simp only [readI16le, List.drop_zero, hm]
  split
  · omega
  · omega

/-- Two stored bytes per sample. -/
lemma pcmBuffer_length (samples : List ℚ) :
    (pcmBuffer samples).length = 2 * samples.length := by
  induction samples with
  | nil => rfl
  | cons a rest ih =>
    simp [pcmBuffer, sampleBytes] at ih ⊢
    omega

/-- Skipping one stored sample. -/
lemma readI16le_cons₂ (a b : Nat) (t : List Nat) (i : Nat) :
    readI16le (a :: b :: t) (i + 2) = readI16le t i := by
  simp [readI16le]

/-- Reading the `i`-th stored 16-bit slot of the converted buffer recovers
the `i`-th sample's converted value. -/
lemma pcmBuffer_get (samples : List ℚ) :
    ∀ i (h : i < samples.length),
      readI16le (pcmBuffer samples) (2 * i) =
        pcmSample (samples.get ⟨i, h⟩) := by
  induction samples with
  | nil => intro i h; simp at h
  | cons a rest ih =>
    intro i h
    cases i with
    | zero =>
      have hb := pcmSample_bounds a
      have : pcmBuffer (a :: rest) =
          int16Bits (pcmSample a) % 256 :: int16Bits (pcmSample a) / 256 ::
            pcmBuffer rest := by
        simp [pcmBuffer, sampleBytes]
      rw [Nat.mul_zero, this, readI16le_cons _ _ hb.1 hb.2]
      rfl
    | succ j =>
      have hlt : j < rest.length := by
        simpa using Nat.lt_of_succ_lt_succ h
      have hsk : pcmBuffer (a :: rest) =
          int16Bits (pcmSample a) % 256 :: int16Bits (pcmSample a) / 256 ::
            pcmBuffer rest := by
        simp [pcmBuffer, sampleBytes]
      have harith : 2 * (j + 1) = 2 * j + 2 := by omega
      rw [hsk, harith, readI16le_cons₂, ih j hlt]
      rfl

/-- C8: while recording with the channel open, each capture buffer is
sent as exactly one `audio` envelope tagged `audio/pcm;rate=16000` whose
payload is the base64 encoding of the converted byte buffer; the buffer
holds two bytes per sample, and decoding the `i`-th little-endian 16-bit
slot recovers the `i`-th sample's value - clamped to `[-1, 1]` and scaled
asymmetrically (negative x 32768 via truncation, non-negative x 32767) -
which always lies in the signed 16-bit range. -/
theorem c8_capture_encoding (s : AppState) (samples : List ℚ)
    (h1 : s.isRecording = true) (h2 : s.wsOpen = true) :
    onAudioProcess s samples =
      [Eff.sendEnvelope (.audioOut (base64Encode (pcmBuffer samples))
        "audio/pcm;rate=16000")] ∧
    (pcmBuffer samples).length = 2 * samples.length ∧
    ∀ i (h : i < samples.length),
      readI16le (pcmBuffer samples) (2 * i) =
        pcmSample (samples.get ⟨i, h⟩) ∧
      -32768 ≤ pcmSample (samples.get ⟨i, h⟩) ∧
      pcmSample (samples.get ⟨i, h⟩) ≤ 32767 := by
  refine ⟨by simp [onAudioProcess, h1, h2], pcmBuffer_length samples, ?_⟩
  intro i h
  exact ⟨pcmBuffer_get samples i h, (pcmSample_bounds _).1,
    (pcmSample_bounds _).2⟩

/-- A live capture session state. -/
def c8state : AppState :=
  { initState with isRecording := true, wsOpen := true }

/-- Witness for C8 on a concrete capture buffer. -/
theorem c8_capture_encoding_witness :
    c8state.isRecording = true ∧
    c8state.wsOpen = true ∧
    (onAudioProcess c8state [(1 : ℚ) / 2, -(1 : ℚ) / 2, 3, -3, 0] =
      [Eff.sendEnvelope (.audioOut
        (base64Encode (pcmBuffer [(1 : ℚ) / 2, -(1 : ℚ) / 2, 3, -3, 0]))
        "audio/pcm;rate=16000")] ∧
    (pcmBuffer [(1 : ℚ) / 2, -(1 : ℚ) / 2, 3, -3, 0]).length =
      2 * ([(1 : ℚ) / 2, -(1 : ℚ) / 2, 3, -3, 0] : List ℚ).length ∧
    ∀ i (h : i < ([(1 : ℚ) / 2, -(1 : ℚ) / 2, 3, -3, 0] : List ℚ).length),
      readI16le (pcmBuffer [(1 : ℚ) / 2, -(1 : ℚ) / 2, 3, -3, 0]) (2 * i) =
        pcmSample (([(1 : ℚ) / 2, -(1 : ℚ) / 2, 3, -3, 0] : List ℚ).get
          ⟨i, h⟩) ∧
      -32768 ≤ pcmSample (([(1 : ℚ) / 2, -(1 : ℚ) / 2, 3, -3, 0] : List ℚ).get
          ⟨i, h⟩) ∧
      pcmSample (([(1 : ℚ) / 2, -(1 : ℚ) / 2, 3, -3, 0] : List ℚ).get
          ⟨i, h⟩) ≤ 32767) :=
  ⟨rfl, rfl, c8_capture_encoding c8state [(1 : ℚ) / 2, -(1 : ℚ) / 2, 3, -3, 0]
    rfl rfl⟩

/-- C9 counterexample: a failing assist lookup is only logged to the
console - no visible error message is rendered and no state changes -
contradicting the claim that every failing query/assist/upload request
surfaces a visible error. -/
theorem c9_counterexample :
    (handleNavAssistResult initState .failure).1 = initState ∧
    (handleNavAssistResult initState .failure).2 =
      [Eff.consoleLog "Nav assist error"] ∧
    (handleNavAssistResult initState .failure).2.all
      (fun e => match e with
        | Eff.render _ _ _ _ => false
        | _ => true) = true :=
  ⟨rfl, rfl, rfl⟩

/-- C9 amended: failing query requests surface a visible error message
and the `isProcessing` guard is released on the cleanup path for success
and failure alike; failing uploads surface a visible error status and
re-enable the upload button on the cleanup path for success and failure
alike; failing assist lookups however are only logged to the console,
with no visible message, no state change and no guard involved. -/
theorem c9_amended (s : AppState) (input name : String)
    (detail : Option String) (q : Except Unit QueryResp)
    (u : Except (Option String) Unit)
    (hmsg : jsTrim input ≠ "") (hp : s.isProcessing = false) :
    ((handleSendMessage s input (.error ())).1.isProcessing = false ∧
     Eff.render
       "Sorry, I encountered an error processing your request. Please try again."
       "bot" none true ∈ (handleSendMessage s input (.error ())).2) ∧
    (handleSendMessage s input q).1.isProcessing = false ∧
    Eff.setUploadStatus
        ("✗ Error: " ++ (jsOr detail (some "Upload failed")).getD "")
        "upload-status error" ∈
      (handleFileUpload s (some name) (.error detail)).2 ∧
    Eff.setUploadDisabled false ∈ (handleFileUpload s (some name) u).2 ∧
    (handleNavAssistResult s .failure).1 = s ∧
    (handleNavAssistResult s .failure).2 =
      [Eff.consoleLog "Nav assist error"] := by
  have hmsg' : (jsTrim input == "") = false := by
    rw [beq_eq_false_iff_ne]; exact hmsg
  refine ⟨⟨?_, ?_⟩, ?_, ?_, ?_, rfl, rfl⟩
  · simp [handleSendMessage, hmsg', hp]
  · simp [handleSendMessage, hmsg', hp]
  · cases q <;> simp [handleSendMessage, hmsg', hp]
  · simp [handleFileUpload]
  · cases u <;> simp [handleFileUpload]

/-- Witness for the amended C9 on a concrete failing round. -/
theorem c9_amended_witness :
    jsTrim "hi" ≠ "" ∧
    initState.isProcessing = false ∧
    (((handleSendMessage initState "hi" (.error ())).1.isProcessing = false ∧
     Eff.render
       "Sorry, I encountered an error processing your request. Please try again."
       "bot" none true ∈ (handleSendMessage initState "hi" (.error ())).2) ∧
    (handleSendMessage initState "hi" (.error ())).1.isProcessing = false ∧
    Eff.setUploadStatus
        ("✗ Error: " ++ (jsOr none (some "Upload failed")).getD "")
        "upload-status error" ∈
      (handleFileUpload initState (some "notes.txt") (.error none)).2 ∧
    Eff.setUploadDisabled false ∈
      (handleFileUpload initState (some "notes.txt") (.error none)).2 ∧
    (handleNavAssistResult initState .failure).1 = initState ∧
    (handleNavAssistResult initState .failure).2 =
      [Eff.consoleLog "Nav assist error"]) :=
  ⟨by decide, rfl,
    c9_amended initState "hi" "notes.txt" none (.error ()) (.error none)
      (by decide) rfl⟩

/-- C10: starting a new recording session from a non-recording state first
discards all audio and suppression state of any prior turn - fragments,
rate tag, playback queue, playing and indicator flags, suppression flag,
pending fallback timer - and pauses and drops any active clip, on the
failure path and the success path alike. -/
theorem c10_start_recording_reset (s : AppState) (mode : String)
    (micOk : Bool) (h : s.isRecording = false) :
    (startRecording s mode micOk).1.pendingAudioChunks = [] ∧
    (startRecording s mode micOk).1.pendingAudioMimeType = none ∧
    (startRecording s mode micOk).1.audioQueue = [] ∧
    (startRecording s mode micOk).1.isPlayingAudio = false ∧
    (startRecording s mode micOk).1.hasShownAudioIndicator = false ∧
    (startRecording s mode micOk).1.navSuppressRealtime = false ∧
    (startRecording s mode micOk).1.navResponseTimeout = none ∧
    (startRecording s mode micOk).1.activeAudio = none ∧
    ∀ clip, s.activeAudio = some clip →
      Eff.pauseAudio clip ∈ (startRecording s mode micOk).2 := by
  refine ⟨?_, ?_, ?_, ?_, ?_, ?_, ?_, ?_, ?_⟩ <;>
    (try intro clip hclip) <;> cases hm : micOk <;>
      simp [startRecording, resetNavAssistState, resetAudioPlaybackState,
        clearNavSpeechFallback, h, hm, *]

/-- A state still carrying a full previous turn: buffered fragments, a
tagged rate, a queued clip, an active clip, suppression and an armed
timer. -/
def c10state : AppState :=
  { initState with
      pendingAudioChunks := [[7]], pendingAudioMimeType := some "audio/pcm;rate=16000",
      audioQueue := [[6]], isPlayingAudio := true, hasShownAudioIndicator := true,
      navSuppressRealtime := true, navResponseTimeout := some 99,
      activeAudio := some [5] }

/-- Witness for C10 on a state full of stale turn state. -/
theorem c10_start_recording_reset_witness :
    c10state.isRecording = false ∧
    ((startRecording c10state "nav" true).1.pendingAudioChunks = [] ∧
    (startRecording c10state "nav" true).1.pendingAudioMimeType = none ∧
    (startRecording c10state "nav" true).1.audioQueue = [] ∧
    (startRecording c10state "nav" true).1.isPlayingAudio = false ∧
    (startRecording c10state "nav" true).1.hasShownAudioIndicator = false ∧
    (startRecording c10state "nav" true).1.navSuppressRealtime = false ∧
    (startRecording c10state "nav" true).1.navResponseTimeout = none ∧
    (startRecording c10state "nav" true).1.activeAudio = none ∧
    ∀ clip, c10state.activeAudio = some clip →
      Eff.pauseAudio clip ∈ (startRecording c10state "nav" true).2) :=
  ⟨rfl, c10_start_recording_reset c10state "nav" true rfl⟩
